import Mathlib

/-
Verification development for the bsky-hn-bot repository.

The repository contains two structurally parallel pipeline instances:
  - the Hacker News instance (src/unnamed/part_000): sqlite table news_data
    (id INTEGER PRIMARY KEY AUTOINCREMENT, storyId INTEGER UNIQUE, title,
    url, commentSummary, retrieved INTEGER DEFAULT 0), functions
    fetchTopStories, fetchStoryDetails, summarizeComments, isStoryProcessed,
    saveStoryToDatabase, getTopNewsItem, main, testRetrieval;
  - the Reddit instance (src/reddit.js): sqlite table processed_posts
    (id TEXT PRIMARY KEY, title, url, summary, retrieved INTEGER DEFAULT 0),
    functions fetchRecentPosts, summarizeTitle, summarizeDiscussion,
    postToBluesky, retrieveAndPost, processPosts, main.

Shallow embedding: the sqlite table is a list of rows paired with the next
autoincrement rowid; every await on an external service (HTTP fetch,
summarization call) is an oracle function supplied by a world structure;
a promise rejection that escapes a tick is the boolean crashed flag of the
step output; externally visible actions (summarizer calls, INSERT attempts,
the UPDATE marking a row retrieved, the Bluesky login and post calls) are
recorded, in execution order, in an event list.
-/

namespace Bot

/-- One row of the per-instance sqlite table. The field rowid models the
sqlite rowid (column id in news_data; the implicit ROWID of processed_posts);
externalId models news_data.storyId (a Nat) or processed_posts.id (a String);
summary models news_data.commentSummary or processed_posts.summary; retrieved
models the integer retrieved flag (DEFAULT 0), as a Bool. -/
structure Row (α : Type) where
  rowid : Nat
  externalId : α
  title : String
  url : String
  summary : String
  retrieved : Bool
deriving DecidableEq

/-- The per-instance sqlite table: rows in insertion order plus the next
autoincrement rowid (sqlite rowids start at 1). -/
structure Store (α : Type) where
  rows : List (Row α)
  nextRowid : Nat
deriving DecidableEq

/-- A freshly created table (CREATE TABLE IF NOT EXISTS, no rows yet). -/
def Store.empty {α : Type} : Store α := ⟨[], 1⟩

/-- The point lookup SELECT 1 FROM table WHERE externalId-column = ?, as a
boolean: does some row carry this external identifier. -/
def Store.hasId {α : Type} [DecidableEq α] (s : Store α) (id : α) : Bool :=
  s.rows.any fun r => decide (r.externalId = id)

/-- A successful INSERT: appends a row with the next autoincrement rowid and
retrieved defaulting to false (column default 0). -/
def Store.insert {α : Type} (s : Store α) (id : α) (title url summary : String) :
    Store α :=
  ⟨s.rows ++ [⟨s.nextRowid, id, title, url, summary, false⟩], s.nextRowid + 1⟩

/-- The helper that flips the retrieved flag of the rows whose rowid matches;
used by markRetrieved. -/
def markRow (rid : Nat) {α : Type} (r : Row α) : Row α :=
  if r.rowid = rid then { r with retrieved := true } else r

/-- UPDATE table SET retrieved = 1 WHERE rowid-column = ?. -/
def Store.markRetrieved {α : Type} (s : Store α) (rid : Nat) : Store α :=
  ⟨s.rows.map (markRow rid), s.nextRowid⟩

/-- How many rows carry the given external identifier. -/
def countId {α : Type} [DecidableEq α] (s : Store α) (id : α) : Nat :=
  (s.rows.filter fun r => decide (r.externalId = id)).length

/-- The external identifiers are pairwise distinct (the UNIQUE constraint on
news_data.storyId; the PRIMARY KEY on processed_posts.id). -/
def UniqueIds {α : Type} (s : Store α) : Prop :=
  (s.rows.map Row.externalId).Nodup

/-- The rowids are pairwise distinct (sqlite rowids always are). -/
def UniqueRowids {α : Type} (s : Store α) : Prop :=
  (s.rows.map Row.rowid).Nodup

instance {α : Type} [DecidableEq α] (s : Store α) : Decidable (UniqueIds s) :=
  inferInstanceAs (Decidable (s.rows.map Row.externalId).Nodup)

instance {α : Type} (s : Store α) : Decidable (UniqueRowids s) :=
  inferInstanceAs (Decidable (s.rows.map Row.rowid).Nodup)

/-- SELECT ... WHERE retrieved = 0 ORDER BY rowid ASC LIMIT 1 over a bare row
list: the row with the least rowid, preferring the earlier row on ties. -/
def minByRowid {α : Type} : List (Row α) → Option (Row α)
  | [] => none
  | r :: rest =>
    match minByRowid rest with
    | none => some r
    | some b => if r.rowid ≤ b.rowid then some r else some b

/-- The shared selection query of both release steps:
SELECT ... FROM news_data WHERE retrieved = 0 ORDER BY id ASC LIMIT 1 and
SELECT ... FROM processed_posts WHERE retrieved = 0 ORDER BY ROWID ASC
LIMIT 1. -/
def selectOldestUnretrieved {α : Type} (s : Store α) : Option (Row α) :=
  minByRowid (s.rows.filter fun r => !r.retrieved)

/-- Does the table hold at least one unretrieved row. -/
def hasUnretrieved {α : Type} (s : Store α) : Bool :=
  s.rows.any fun r => !r.retrieved

/-- How many rows are already marked retrieved. -/
def publishedCount {α : Type} (s : Store α) : Nat :=
  (s.rows.filter fun r => r.retrieved).length

/-- Externally visible actions of one tick, in execution order. -/
inductive Ev (α : Type) where
  | summarizeTitleCall (input : String)
  | summarizeDiscussionCall (input : String)
  | insertRow (id : α) (ok : Bool)
  | dbUpdate (rowid : Nat)
  | login
  | post (text : String)
deriving DecidableEq

/-- Is this event the Bluesky post call. -/
def Ev.isPost {α : Type} : Ev α → Bool
  | .post _ => true
  | _ => false

/-- Is this event the UPDATE marking a row retrieved. -/
def Ev.isDbUpdate {α : Type} : Ev α → Bool
  | .dbUpdate _ => true
  | _ => false

/-- Is this event an INSERT attempt. -/
def Ev.isInsertAttempt {α : Type} : Ev α → Bool
  | .insertRow _ _ => true
  | _ => false

/-- Is this event a summarization (enrichment) call. -/
def Ev.isSummarizeCall {α : Type} : Ev α → Bool
  | .summarizeTitleCall _ => true
  | .summarizeDiscussionCall _ => true
  | _ => false

/-- Did some store update happen strictly before the first publish call of
the trace. -/
def updateBeforeFirstPost {α : Type} (evs : List (Ev α)) : Bool :=
  (evs.takeWhile fun e => !e.isPost).any fun e => e.isDbUpdate

/-- Outcome of running a tick fragment: the table afterwards, the recorded
events, and whether a promise rejection escaped the fragment. -/
structure StepOut (α : Type) where
  store : Store α
  evs : List (Ev α)
  crashed : Bool
deriving DecidableEq

instance {ε α : Type} [DecidableEq ε] [DecidableEq α] :
    DecidableEq (Except ε α) := fun a b =>
  match a, b with
  | .ok x, .ok y =>
    if h : x = y then isTrue (congrArg Except.ok h)
    else isFalse fun hc => h (Except.ok.inj hc)
  | .ok _, .error _ => isFalse fun hc => Except.noConfusion hc
  | .error _, .ok _ => isFalse fun hc => Except.noConfusion hc
  | .error x, .error y =>
    if h : x = y then isTrue (congrArg Except.error h)
    else isFalse fun hc => h (Except.error.inj hc)

/-! ### The Hacker News instance (src/unnamed/part_000) -/

/-- An item as returned by the Hacker News item endpoint. The empty string
models a missing (falsy) url or text field; kids = none models an item
without a kids array (note that some [] is truthy, as in JavaScript). -/
structure HNItem where
  title : String
  url : String
  kids : Option (List Nat)
  text : String
deriving DecidableEq

/-- Oracles for the external services of the Hacker News instance:
fetchStoryDetails (error models a thrown axios error, ok none models the
endpoint returning null) and summarizeComments (error models a thrown
OpenAI call). -/
structure HNWorld where
  fetchItem : Nat → Except Unit (Option HNItem)
  summarize : String → Except Unit String

/-- Error signalled by a failed INSERT: the sqlite constraint violation on
the UNIQUE storyId column. -/
inductive DbErr where
  | uniqueViolation
deriving DecidableEq

/-- isStoryProcessed: SELECT 1 FROM news_data WHERE storyId = ?. -/
def isStoryProcessed (s : Store Nat) (storyId : Nat) : Bool :=
  s.hasId storyId

/-- saveStoryToDatabase: INSERT INTO news_data (storyId, title, url,
commentSummary) VALUES (?, ?, ?, ?). The callback rejects the promise when
the INSERT fails, which for this statement happens exactly on a storyId
uniqueness violation. -/
def saveStoryToDatabase (s : Store Nat) (storyId : Nat)
    (title url commentSummary : String) : Except DbErr (Store Nat) :=
  if s.hasId storyId then .error .uniqueViolation
  else .ok (s.insert storyId title url commentSummary)

/-- getTopNewsItem: selects the unretrieved row with the least id; when a row
is found, runs the UPDATE marking it retrieved and only then resolves with
the row; resolves with null when no row qualifies. -/
def getTopNewsItem (s : Store Nat) : Option (Row Nat) × StepOut Nat :=
  match selectOldestUnretrieved s with
  | some r => (some r, ⟨s.markRetrieved r.rowid, [Ev.dbUpdate r.rowid], false⟩)
  | none => (none, ⟨s, [], false⟩)

/-- The message text built in testRetrieval, following its three assignment
statements: title line, blank line, comment summary line, blank line, then
the Hacker News item page URL built from the storyId. -/
def hnMessage (r : Row Nat) : String :=
  let msg := ("📰 ") ++ r.title ++ ("\r\n\r\n")
  let msg := msg ++ ("💬 ") ++ r.summary
  let msg := msg ++ ("\r\n\r\nhttps://news.ycombinator.com/item?id=") ++ toString r.externalId
  msg

/-- testRetrieval: takes the top news item; when one exists, builds the
message, logs in and posts it (both modelled as always succeeding events);
when none exists, only logs. -/
def testRetrieval (s : Store Nat) : StepOut Nat :=
  match getTopNewsItem s with
  | (some r, o) => ⟨o.store, o.evs ++ [Ev.login, Ev.post (hnMessage r)], false⟩
  | (none, o) => o

/-- The comment collection loop of main: for each of the first 25 kids,
await fetchStoryDetails; a thrown fetch aborts the whole loop (the await
rethrows), a null item or an item with an empty text field is skipped, and
surviving texts are kept in source order. -/
def hnCollectComments (w : HNWorld) : List Nat → Except Unit (List String)
  | [] => .ok []
  | cid :: rest =>
    match w.fetchItem cid with
    | .error e => .error e
    | .ok none => hnCollectComments w rest
    | .ok (some c) =>
      if c.text = ("") then hnCollectComments w rest
      else
        match hnCollectComments w rest with
        | .error e => .error e
        | .ok ts => .ok (c.text :: ts)

/-- One iteration of the candidate loop in main: dedup check, detail fetch
(a thrown fetch escapes), skip when the story is null or lacks kids or a
url, comment collection, summarization, then saveStoryToDatabase, whose
rejection also escapes the loop. -/
def hnProcessCandidate (w : HNWorld) (s : Store Nat) (storyId : Nat) :
    StepOut Nat :=
  if isStoryProcessed s storyId then ⟨s, [], false⟩
  else
    match w.fetchItem storyId with
    | .error _ => ⟨s, [], true⟩
    | .ok none => ⟨s, [], false⟩
    | .ok (some story) =>
      match story.kids with
      | none => ⟨s, [], false⟩
      | some kids =>
        if story.url = ("") then ⟨s, [], false⟩
        else
          match hnCollectComments w (kids.take 25) with
          | .error _ => ⟨s, [], true⟩
          | .ok texts =>
            let input := String.intercalate ("\n") texts
            match w.summarize input with
            | .error _ => ⟨s, [Ev.summarizeDiscussionCall input], true⟩
            | .ok commentSummary =>
              match saveStoryToDatabase s storyId story.title story.url commentSummary with
              | .error _ =>
                ⟨s, [Ev.summarizeDiscussionCall input, Ev.insertRow storyId false], true⟩
              | .ok s' =>
                ⟨s', [Ev.summarizeDiscussionCall input, Ev.insertRow storyId true], false⟩

/-- The sequential candidate loop of main: each candidate is awaited in
order; once a rejection escapes one iteration, the remaining candidates are
not processed. -/
def hnIngest (w : HNWorld) (s : Store Nat) : List Nat → StepOut Nat
  | [] => ⟨s, [], false⟩
  | id :: rest =>
    let o := hnProcessCandidate w s id
    if o.crashed then o
    else
      let o' := hnIngest w o.store rest
      ⟨o'.store, o.evs ++ o'.evs, o'.crashed⟩

/-- main: runs the candidate loop over the fetched story ids, then, only if
no rejection escaped the loop, awaits testRetrieval. -/
def hnMain (w : HNWorld) (s : Store Nat) (storyIds : List Nat) : StepOut Nat :=
  let o := hnIngest w s storyIds
  if o.crashed then o
  else
    let o2 := testRetrieval o.store
    ⟨o2.store, o.evs ++ o2.evs, o2.crashed⟩

/-! ### The Reddit instance (src/reddit.js) -/

/-- A post as mapped by fetchRecentPosts: id, title, the permalink-based url,
and selftext (the empty string models a missing or empty selftext). -/
structure RedditPost where
  id : String
  title : String
  url : String
  selftext : String
deriving DecidableEq

/-- Oracles for the two summarization calls of the Reddit instance; error
models a thrown OpenAI call. -/
structure RedditWorld where
  summarizeTitle : String → Except Unit String
  summarizeDiscussion : String → Except Unit String

/-- The argument of summarizeDiscussion in processPosts:
post.selftext or post.title, where the empty string is falsy. -/
def selftextOrTitle (p : RedditPost) : String :=
  if p.selftext = ("") then p.title else p.selftext

/-- The message text built in retrieveAndPost: title line, blank line,
summary line, blank line, then the subreddit comments URL built from the
post id. -/
def redditMessage (r : Row String) : String :=
  ("📰 ") ++ r.title ++ ("\n\n💬 ") ++ r.summary ++
    ("\n\nhttps://www.reddit.com/r/LosAngeles/comments/") ++ r.externalId

/-- retrieveAndPost: selects the unretrieved row with the least ROWID; when
a row is found, builds the message, awaits postToBluesky (login then post,
with its own errors caught inside postToBluesky), and only afterwards runs
the UPDATE marking the row retrieved; when no row is found, only logs. -/
def retrieveAndPost (s : Store String) : StepOut String :=
  match selectOldestUnretrieved s with
  | some r =>
    ⟨s.markRetrieved r.rowid,
     [Ev.login, Ev.post (redditMessage r), Ev.dbUpdate r.rowid], false⟩
  | none => ⟨s, [], false⟩

/-- The resumed body of one dedup callback of processPosts, given the row
flag its SELECT observed: when the post was already present it only logs;
otherwise it awaits summarizeTitle (the result is bound but never used; a
thrown call ends only this detached callback), awaits summarizeDiscussion on
selftext-or-title, and finally runs the INSERT, whose error is logged and
swallowed; the INSERT fails exactly on a primary key violation. -/
def redditHandlePost (w : RedditWorld) (alreadySeen : Bool) (s : Store String)
    (p : RedditPost) : Store String × List (Ev String) :=
  if alreadySeen then (s, [])
  else
    match w.summarizeTitle p.title with
    | .error _ => (s, [Ev.summarizeTitleCall p.title])
    | .ok _t =>
      match w.summarizeDiscussion (selftextOrTitle p) with
      | .error _ =>
        (s, [Ev.summarizeTitleCall p.title,
             Ev.summarizeDiscussionCall (selftextOrTitle p)])
      | .ok summary =>
        if s.hasId p.id then
          (s, [Ev.summarizeTitleCall p.title,
               Ev.summarizeDiscussionCall (selftextOrTitle p),
               Ev.insertRow p.id false])
        else
          (s.insert p.id p.title p.url summary,
           [Ev.summarizeTitleCall p.title,
            Ev.summarizeDiscussionCall (selftextOrTitle p),
            Ev.insertRow p.id true])

/-- Sequentially resumes the dedup callbacks with their recorded flags. -/
def redditRunCallbacks (w : RedditWorld) (s : Store String) :
    List (RedditPost × Bool) → Store String × List (Ev String)
  | [] => (s, [])
  | (p, seen) :: rest =>
    let o := redditHandlePost w seen s p
    let o' := redditRunCallbacks w o.1 rest
    (o'.1, o.2 ++ o'.2)

/-- processPosts: posts.forEach synchronously enqueues one dedup SELECT per
post, so every dedup callback observes the table as it stood before any of
the INSERTs of this tick (each callback suspends on its summarization awaits
long before its INSERT is enqueued); the callbacks then resume and complete
independently. A failure inside one callback never rejects processPosts
itself. -/
def redditProcessPosts (w : RedditWorld) (s : Store String)
    (posts : List RedditPost) : StepOut String :=
  let flagged := posts.map fun p => (p, s.hasId p.id)
  let o := redditRunCallbacks w s flagged
  ⟨o.1, o.2, false⟩

/-! ### Concrete fixtures and spec-comparison definitions -/

/-- Store holding record A after one save into an empty store. -/
def fifoS1 : Store Nat := Store.empty.insert 101 ("A") ("ua") ("ca")

/-- Store holding records A and B, created in that order. -/
def fifoS2 : Store Nat := fifoS1.insert 102 ("B") ("ub") ("cb")

/-- Store holding records A, B and C, created in that order. -/
def fifoS3 : Store Nat := fifoS2.insert 103 ("C") ("uc") ("cc")

/-- Store after the first release invocation on fifoS3. -/
def fifoT1 : Store Nat := (getTopNewsItem fifoS3).2.store

/-- Store after the second release invocation. -/
def fifoT2 : Store Nat := (getTopNewsItem fifoT1).2.store

/-- Store after the third release invocation. -/
def fifoT3 : Store Nat := (getTopNewsItem fifoT2).2.store

/-- Reddit-instance store holding record A after one insert. -/
def fifoR1 : Store String := Store.empty.insert ("a") ("A") ("ua") ("ca")

/-- Reddit-instance store holding records A and B, created in that order. -/
def fifoR2 : Store String := fifoR1.insert ("b") ("B") ("ub") ("cb")

/-- Reddit-instance store holding records A, B and C, created in that
order. -/
def fifoR3 : Store String := fifoR2.insert ("c") ("C") ("uc") ("cc")

/-- Store after the first retrieveAndPost invocation on fifoR3. -/
def fifoU1 : Store String := (retrieveAndPost fifoR3).store

/-- Store after the second retrieveAndPost invocation. -/
def fifoU2 : Store String := (retrieveAndPost fifoU1).store

/-- Store after the third retrieveAndPost invocation. -/
def fifoU3 : Store String := (retrieveAndPost fifoU2).store

/-- A Reddit-instance store holding one unretrieved record, used to exhibit
the publish-before-update order of retrieveAndPost. -/
def c3Store : Store String := Store.empty.insert ("a") ("T") ("U") ("S")

/-- Modelled from the spec: the Publisher message of section 4.6 read
together with the data model of section 3, whose final component is the
canonical source URL stored in the url field of the Record. Used only to
compare with the message the code actually builds. -/
def hnMessageSpec (r : Row Nat) : String :=
  ("📰 ") ++ r.title ++ ("\r\n\r\n") ++ ("💬 ") ++ r.summary
    ++ ("\r\n\r\n") ++ r.url

/-- Modelled from the spec: the same Publisher message for the Reddit
instance, ending with the stored url field. -/
def redditMessageSpec (r : Row String) : String :=
  ("📰 ") ++ r.title ++ ("\n\n") ++ ("💬 ") ++ r.summary ++ ("\n\n") ++ r.url

/-- Closed form of the texts the comment loop of main keeps when no comment
fetch throws: for each child id, the fetched item text whenever the item
exists and its text is nonempty, omitted otherwise, in source order. -/
def commentTextsSpec (w : HNWorld) (l : List Nat) : List String :=
  l.filterMap fun cid =>
    match w.fetchItem cid with
    | .ok (some c) => if c.text = ("") then none else some c.text
    | _ => none

/-- A Hacker News world in which fetching item 2 throws and every other
fetch resolves to a story with an empty kids array, a nonempty url and no
text; the summarizer always succeeds. -/
def c6World : HNWorld :=
  ⟨fun id =>
      if id = 2 then .error ()
      else .ok (some ⟨("T"), ("u"), some [], ("")⟩),
   fun _ => .ok ("S")⟩

/-- A Reddit world whose two summarizers always succeed. -/
def okWorldR : RedditWorld := ⟨fun _ => .ok ("T"), fun _ => .ok ("S")⟩

/-- A Reddit post with a nonempty selftext. -/
def dupPost : RedditPost := ⟨("x"), ("t"), ("u"), ("b")⟩

/-- A Reddit post whose selftext is empty (falsy in the source), so the
discussion summarizer receives the title instead. -/
def emptyBodyPost : RedditPost := ⟨("y"), ("hello"), ("u"), ("")⟩

/-! ### Store lemmas -/

theorem minByRowid_eq_none {α : Type} {l : List (Row α)} :
    minByRowid l = none ↔ l = [] := by
  induction l with
  | nil => simp [minByRowid]
  | cons a t ih =>
    simp only [minByRowid]
    cases h : minByRowid t with
    | none => simp
    | some b =>
      constructor
      · intro hc
        by_cases hle : a.rowid ≤ b.rowid <;> simp [hle] at hc
      · intro hc; cases hc

theorem minByRowid_mem {α : Type} {l : List (Row α)} {r : Row α}
    (h : minByRowid l = some r) : r ∈ l := by
  induction l with
  | nil => cases h
  | cons a t ih =>
    simp only [minByRowid] at h
    cases ht : minByRowid t with
    | none => rw [ht] at h; simp at h; simp [h]
    | some b =>
      rw [ht] at h
      by_cases hle : a.rowid ≤ b.rowid
      · simp [hle] at h; simp [h]
      · simp [hle] at h
        exact List.mem_cons_of_mem a (ih (h ▸ ht))

theorem minByRowid_le {α : Type} {l : List (Row α)} :
    ∀ {r : Row α}, minByRowid l = some r → ∀ x ∈ l, r.rowid ≤ x.rowid := by
  induction l with
  | nil => intro r h; cases h
  | cons a t ih =>
    intro r h x hx
    simp only [minByRowid] at h
    cases ht : minByRowid t with
    | none =>
      rw [ht] at h
      simp only [Option.some.injEq] at h
      have hnil : t = [] := minByRowid_eq_none.mp ht
      subst hnil
      rcases List.mem_cons.mp hx with rfl | hxt
      · simp [h]
      · cases hxt
    | some b =>
      rw [ht] at h
      by_cases hle : a.rowid ≤ b.rowid
      · simp only [hle, if_true, Option.some.injEq] at h
        subst h
        rcases List.mem_cons.mp hx with rfl | hxt
        · exact Nat.le_refl _
        · exact Nat.le_trans hle (ih ht x hxt)
      · simp only [hle, if_false, Option.some.injEq] at h
        subst h
        rcases List.mem_cons.mp hx with rfl | hxt
        · exact Nat.le_of_lt (Nat.lt_of_not_le hle)
        · exact ih ht x hxt

theorem hasId_iff {α : Type} [DecidableEq α] {s : Store α} {id : α} :
    s.hasId id = true ↔ id ∈ s.rows.map Row.externalId := by
  simp only [Store.hasId, List.any_eq_true, List.mem_map, decide_eq_true_eq]

theorem map_markRow_of_not_mem {α : Type} {l : List (Row α)} {rid : Nat}
    (h : rid ∉ l.map Row.rowid) : l.map (markRow rid) = l := by
  induction l with
  | nil => rfl
  | cons a t ih =>
    simp only [List.map_cons, List.mem_cons] at h ⊢
    push_neg at h
    rw [markRow, if_neg (fun he => h.1 he.symm), ih h.2]

theorem mem_map_markRow_of_ne {α : Type} {l : List (Row α)} {rid : Nat}
    {r' : Row α} (h : r' ∈ l) (hne : r'.rowid ≠ rid) :
    r' ∈ l.map (markRow rid) :=
  List.mem_map.mpr ⟨r', h, by rw [markRow, if_neg hne]⟩

theorem filter_retrieved_map_markRow {α : Type} {l : List (Row α)} {r : Row α}
    (hnd : (l.map Row.rowid).Nodup) (hmem : r ∈ l) (hret : r.retrieved = false) :
    ((l.map (markRow r.rowid)).filter fun x => x.retrieved).length
      = ((l.filter fun x => x.retrieved).length) + 1 := by
  induction l with
  | nil => cases hmem
  | cons a t ih =>
    simp only [List.map_cons, List.nodup_cons] at hnd
    rcases hnd with ⟨hna, hndt⟩
    rcases List.mem_cons.mp hmem with rfl | hmt
    · have ht : t.map (markRow r.rowid) = t := map_markRow_of_not_mem hna
      simp only [List.map_cons, ht, markRow, if_pos rfl]
      simp [List.filter_cons, hret]
    · have hne : a.rowid ≠ r.rowid := by
        intro he
        exact hna (he ▸ List.mem_map.mpr ⟨r, hmt, rfl⟩)
      simp only [List.map_cons, markRow, if_neg hne]
      by_cases hr : a.retrieved = true
      · simp only [List.filter_cons, hr]
        simp only [if_pos trivial, List.length_cons]
        rw [ih hndt hmt]
      · have hb : a.retrieved = false := by
          revert hr; cases a.retrieved <;> simp
        simp only [List.filter_cons, hb]
        simp only [Bool.false_eq_true, decide_False, Bool.false_eq_true,
          if_false]
        rw [ih hndt hmt]

theorem publishedCount_markRetrieved {α : Type} {s : Store α} {r : Row α}
    (hnd : UniqueRowids s) (hmem : r ∈ s.rows) (hret : r.retrieved = false) :
    publishedCount (s.markRetrieved r.rowid) = publishedCount s + 1 :=
  filter_retrieved_map_markRow hnd hmem hret

theorem map_externalId_markRetrieved {α : Type} (s : Store α) (rid : Nat) :
    (s.markRetrieved rid).rows.map Row.externalId = s.rows.map Row.externalId := by
  show (s.rows.map (markRow rid)).map Row.externalId = _
  rw [List.map_map]
  apply List.map_congr_left
  intro a _
  show (markRow rid a).externalId = a.externalId
  rw [markRow]
  by_cases h : a.rowid = rid <;> simp [h]

theorem uniqueIds_insert {α : Type} [DecidableEq α] {s : Store α} {id : α}
    (hu : UniqueIds s) (hnew : s.hasId id = false)
    (title url summary : String) :
    UniqueIds (s.insert id title url summary) := by
  show ((s.insert id title url summary).rows.map Row.externalId).Nodup
  simp only [Store.insert, List.map_append, List.nodup_append]
  refine ⟨hu, by simp, ?_⟩
  intro x hx hx'
  simp only [List.map_cons, List.map_nil, List.mem_singleton] at hx'
  subst hx'
  exact absurd (hasId_iff.mpr hx) (by simp [hnew])

theorem filter_id_length_le_one {α : Type} [DecidableEq α] {l : List (Row α)}
    {id : α} (hnd : (l.map Row.externalId).Nodup) :
    (l.filter fun r => decide (r.externalId = id)).length ≤ 1 := by
  induction l with
  | nil => simp
  | cons a t ih =>
    simp only [List.map_cons, List.nodup_cons] at hnd
    rcases hnd with ⟨hna, hndt⟩
    by_cases ha : a.externalId = id
    · have ht : (t.filter fun r => decide (r.externalId = id)) = [] := by
        apply List.filter_eq_nil_iff.mpr
        intro r hr
        simp only [decide_eq_true_eq]
        intro he
        exact hna (ha ▸ he ▸ List.mem_map.mpr ⟨r, hr, rfl⟩)
      simp [List.filter_cons, ha, ht]
    · simp only [List.filter_cons, decide_eq_true_eq]
      simp only [ha, if_neg]
      exact ih hndt

theorem countId_le_one {α : Type} [DecidableEq α] {s : Store α} {id : α}
    (hu : UniqueIds s) : countId s id ≤ 1 :=
  filter_id_length_le_one hu

theorem countId_eq_one_of_hasId {α : Type} [DecidableEq α] {s : Store α}
    {id : α} (hu : UniqueIds s) (h : s.hasId id = true) : countId s id = 1 := by
  have hle : countId s id ≤ 1 := countId_le_one hu
  have hpos : 0 < countId s id := by
    rcases List.mem_map.mp (hasId_iff.mp h) with ⟨r, hr, he⟩
    have : r ∈ s.rows.filter fun r => decide (r.externalId = id) :=
      List.mem_filter.mpr ⟨hr, by simp [he]⟩
    exact List.length_pos.mpr (fun hnil => by simp [hnil] at this)
  omega

theorem filter_unretrieved_eq_nil {α : Type} {l : List (Row α)}
    (h : ∀ r ∈ l, r.retrieved = true) :
    (l.filter fun r => !r.retrieved) = [] := by
  apply List.filter_eq_nil_iff.mpr
  intro r hr
  simp [h r hr]

theorem selectOldest_eq_none {α : Type} {s : Store α}
    (h : ∀ r ∈ s.rows, r.retrieved = true) :
    selectOldestUnretrieved s = none := by
  rw [selectOldestUnretrieved, filter_unretrieved_eq_nil h]
  rfl

theorem selectOldest_isSome_of_unretrieved {α : Type} {s : Store α}
    (h : hasUnretrieved s = true) :
    ∃ r, selectOldestUnretrieved s = some r := by
  rcases List.any_eq_true.mp h with ⟨r, hr, hret⟩
  cases hsel : selectOldestUnretrieved s with
  | some b => exact ⟨b, rfl⟩
  | none =>
    have : (s.rows.filter fun r => !r.retrieved) = [] :=
      minByRowid_eq_none.mp hsel
    have hmem : r ∈ s.rows.filter fun r => !r.retrieved :=
      List.mem_filter.mpr ⟨hr, hret⟩
    rw [this] at hmem
    cases hmem

theorem selectOldest_spec {α : Type} {s : Store α} {r : Row α}
    (h : selectOldestUnretrieved s = some r) :
    r ∈ s.rows ∧ r.retrieved = false ∧
      ∀ r' ∈ s.rows, r'.retrieved = false → r.rowid ≤ r'.rowid := by
  have hmem := minByRowid_mem h
  have hle := minByRowid_le h
  rcases List.mem_filter.mp hmem with ⟨hin, hret⟩
  refine ⟨hin, by simpa using hret, ?_⟩
  intro r' hr' hret'
  exact hle r' (List.mem_filter.mpr ⟨hr', by simp [hret']⟩)

/-! ### Pipeline lemmas -/

theorem hasId_insert_self {α : Type} [DecidableEq α] (s : Store α) (id : α)
    (t u sm : String) : (s.insert id t u sm).hasId id = true := by
  simp [Store.insert, Store.hasId]

theorem hnProcessCandidate_shape (w : HNWorld) (s : Store Nat) (id : Nat) :
    hnProcessCandidate w s id = ⟨s, [], false⟩ ∨
    ((hnProcessCandidate w s id).crashed = true ∧
      (hnProcessCandidate w s id).store = s) ∨
    (∃ t u sm input, isStoryProcessed s id = false ∧
      hnProcessCandidate w s id
        = ⟨s.insert id t u sm,
           [Ev.summarizeDiscussionCall input, Ev.insertRow id true],
           false⟩) := by
  by_cases hp : isStoryProcessed s id = true
  · exact Or.inl (by rw [hnProcessCandidate, if_pos hp])
  · have hp' : isStoryProcessed s id = false := by simpa using hp
    cases hf : w.fetchItem id with
    | error e =>
      refine Or.inr (Or.inl ?_)
      constructor <;> simp [hnProcessCandidate, hp', hf]
    | ok oi =>
      cases oi with
      | none =>
        refine Or.inl ?_
        simp [hnProcessCandidate, hp', hf]
      | some story =>
        cases hk : story.kids with
        | none =>
          refine Or.inl ?_
          simp [hnProcessCandidate, hp', hf, hk]
        | some kids =>
          by_cases hu2 : story.url = ("")
          · refine Or.inl ?_
            simp [hnProcessCandidate, hp', hf, hk, hu2]
          · cases hc : hnCollectComments w (kids.take 25) with
            | error e =>
              refine Or.inr (Or.inl ?_)
              constructor <;> simp [hnProcessCandidate, hp', hf, hk, hu2, hc]
            | ok texts =>
              cases hsm : w.summarize (String.intercalate ("\n") texts) with
              | error e =>
                refine Or.inr (Or.inl ?_)
                constructor <;>
                  simp [hnProcessCandidate, hp', hf, hk, hu2, hc, hsm]
              | ok sm =>
                have hsv : saveStoryToDatabase s id story.title story.url sm
                    = .ok (s.insert id story.title story.url sm) := by
                  rw [saveStoryToDatabase, if_neg]
                  exact hp
                refine Or.inr (Or.inr ⟨story.title, story.url, sm,
                  String.intercalate ("\n") texts, hp', ?_⟩)
                simp [hnProcessCandidate, hp', hf, hk, hu2, hc, hsm, hsv]

theorem hnCollectComments_ok (w : HNWorld) :
    ∀ (l : List Nat) (ts : List String),
      hnCollectComments w l = .ok ts → ts = commentTextsSpec w l := by
  intro l
  induction l with
  | nil =>
    intro ts h
    simp only [hnCollectComments] at h
    injection h with h
    subst h
    simp [commentTextsSpec]
  | cons cid rest ih =>
    intro ts h
    simp only [hnCollectComments] at h
    cases hf : w.fetchItem cid with
    | error e =>
      rw [hf] at h
      simp at h
    | ok oi =>
      rw [hf] at h
      cases oi with
      | none =>
        have h' : hnCollectComments w rest = .ok ts := h
        exact (ih ts h').trans
          (by simp [commentTextsSpec, List.filterMap_cons, hf])
      | some c =>
        have h' : (if c.text = ("") then hnCollectComments w rest
            else
              match hnCollectComments w rest with
              | .error e => .error e
              | .ok ts2 => .ok (c.text :: ts2)) = Except.ok ts := h
        by_cases ht : c.text = ("")
        · rw [if_pos ht] at h'
          exact (ih ts h').trans
            (by simp [commentTextsSpec, List.filterMap_cons, hf, ht])
        · rw [if_neg ht] at h'
          cases hr : hnCollectComments w rest with
          | error e => rw [hr] at h'; simp at h'
          | ok ts2 =>
            rw [hr] at h'
            have h2 : Except.ok (c.text :: ts2) = Except.ok ts := h'
            injection h2 with h2
            rw [← h2]
            simp [commentTextsSpec, List.filterMap_cons, hf, ht, ih ts2 hr]

theorem redditHandlePost_title_indep (f g d : String → Except Unit String)
    (hf : ∀ x, (f x).isOk = true) (hg : ∀ x, (g x).isOk = true)
    (seen : Bool) (s : Store String) (p : RedditPost) :
    redditHandlePost ⟨f, d⟩ seen s p = redditHandlePost ⟨g, d⟩ seen s p := by
  cases seen with
  | true => rfl
  | false =>
    cases hfx : f p.title with
    | error e =>
      have hbad := hf p.title
      rw [hfx] at hbad
      simp [Except.isOk, Except.toBool] at hbad
    | ok t1 =>
      cases hgx : g p.title with
      | error e =>
        have hbad := hg p.title
        rw [hgx] at hbad
        simp [Except.isOk, Except.toBool] at hbad
      | ok t2 =>
        simp [redditHandlePost, hfx, hgx]

theorem redditRunCallbacks_title_indep (f g d : String → Except Unit String)
    (hf : ∀ x, (f x).isOk = true) (hg : ∀ x, (g x).isOk = true) :
    ∀ (l : List (RedditPost × Bool)) (s : Store String),
      redditRunCallbacks ⟨f, d⟩ s l = redditRunCallbacks ⟨g, d⟩ s l := by
  intro l
  induction l with
  | nil => intro s; rfl
  | cons a rest ih =>
    intro s
    obtain ⟨p, seen⟩ := a
    simp only [redditRunCallbacks]
    rw [redditHandlePost_title_indep f g d hf hg seen s p, ih]

theorem hnIngest_not_crashed_cons (w : HNWorld) (s : Store Nat) (a : Nat)
    (rest : List Nat) (hoa : (hnProcessCandidate w s a).crashed = false) :
    hnIngest w s (a :: rest)
      = ⟨(hnIngest w (hnProcessCandidate w s a).store rest).store,
         (hnProcessCandidate w s a).evs
           ++ (hnIngest w (hnProcessCandidate w s a).store rest).evs,
         (hnIngest w (hnProcessCandidate w s a).store rest).crashed⟩ := by
  simp [hnIngest, hoa]

theorem hnIngest_append_crash (w : HNWorld) :
    ∀ (pre : List Nat) (s : Store Nat) (c : Nat) (post' : List Nat),
      (hnIngest w s pre).crashed = false →
      (hnProcessCandidate w (hnIngest w s pre).store c).crashed = true →
      hnIngest w s (pre ++ c :: post')
        = ⟨(hnIngest w s pre).store,
           (hnIngest w s pre).evs
             ++ (hnProcessCandidate w (hnIngest w s pre).store c).evs,
           true⟩ := by
  intro pre
  induction pre with
  | nil =>
    intro s c post' hpre hc
    simp only [hnIngest] at hc
    have hsto : (hnProcessCandidate w s c).store = s := by
      rcases hnProcessCandidate_shape w s c with h | ⟨h1, h2⟩ |
          ⟨t, u, sm, input, hp, h⟩
      · rw [h] at hc; simp at hc
      · exact h2
      · rw [h] at hc; simp at hc
    simp only [List.nil_append, hnIngest, hc, if_true]
    calc hnProcessCandidate w s c
        = ⟨(hnProcessCandidate w s c).store, (hnProcessCandidate w s c).evs,
           (hnProcessCandidate w s c).crashed⟩ := rfl
      _ = _ := by rw [hsto, hc]
  | cons a pre ih =>
    intro s c post' hpre hc
    have hoa : (hnProcessCandidate w s a).crashed = false := by
      by_contra hcon
      have hval : (hnProcessCandidate w s a).crashed = true := by
        revert hcon; cases (hnProcessCandidate w s a).crashed <;> simp
      simp [hnIngest, hval] at hpre
    simp only [hnIngest_not_crashed_cons w s a pre hoa] at hpre hc
    rw [List.cons_append]
    rw [hnIngest_not_crashed_cons w s a (pre ++ c :: post') hoa]
    rw [ih (hnProcessCandidate w s a).store c post' hpre hc]
    simp only [hnIngest_not_crashed_cons w s a pre hoa]
    simp [List.append_assoc]

theorem hnMain_of_crashed (w : HNWorld) (s : Store Nat) (ids : List Nat)
    (h : (hnIngest w s ids).crashed = true) :
    hnMain w s ids = hnIngest w s ids := by
  simp [hnMain, h]

/-! ### Claim C1 -/

/-- C1: release is FIFO by record creation order, in both instances.
Whenever getTopNewsItem finds a row, that row is an unretrieved stored row
whose rowid is least among the unretrieved rows; every retrieveAndPost
invocation either releases (posts and marks) such a least-rowid unretrieved
row or finds none because every row is already retrieved; and for three
records A, B, C created in that order into an empty store, three successive
release invocations of either instance release A, then B, then C, and a
fourth resolves with the absence signal and leaves the store as is. -/
theorem C1_fifo_release :
    (∀ (s : Store Nat) (r : Row Nat) (o : StepOut Nat),
        getTopNewsItem s = (some r, o) →
        r ∈ s.rows ∧ r.retrieved = false ∧
          ∀ r' ∈ s.rows, r'.retrieved = false → r.rowid ≤ r'.rowid) ∧
    (∀ s : Store String,
        (∃ r : Row String,
          retrieveAndPost s
              = ⟨s.markRetrieved r.rowid,
                 [Ev.login, Ev.post (redditMessage r), Ev.dbUpdate r.rowid],
                 false⟩ ∧
          r ∈ s.rows ∧ r.retrieved = false ∧
          ∀ r' ∈ s.rows, r'.retrieved = false → r.rowid ≤ r'.rowid) ∨
        (retrieveAndPost s = ⟨s, [], false⟩ ∧
          ∀ r ∈ s.rows, r.retrieved = true)) ∧
    (saveStoryToDatabase Store.empty 101 ("A") ("ua") ("ca") = Except.ok fifoS1 ∧
     saveStoryToDatabase fifoS1 102 ("B") ("ub") ("cb") = Except.ok fifoS2 ∧
     saveStoryToDatabase fifoS2 103 ("C") ("uc") ("cc") = Except.ok fifoS3 ∧
     (getTopNewsItem fifoS3).1.map Row.externalId = some 101 ∧
     (getTopNewsItem fifoT1).1.map Row.externalId = some 102 ∧
     (getTopNewsItem fifoT2).1.map Row.externalId = some 103 ∧
     (getTopNewsItem fifoT3).1 = none ∧
     (getTopNewsItem fifoT3).2.store = fifoT3) ∧
    ((retrieveAndPost fifoR3).evs
        = [Ev.login,
           Ev.post (redditMessage ⟨1, ("a"), ("A"), ("ua"), ("ca"), false⟩),
           Ev.dbUpdate 1] ∧
     (retrieveAndPost fifoU1).evs
        = [Ev.login,
           Ev.post (redditMessage ⟨2, ("b"), ("B"), ("ub"), ("cb"), false⟩),
           Ev.dbUpdate 2] ∧
     (retrieveAndPost fifoU2).evs
        = [Ev.login,
           Ev.post (redditMessage ⟨3, ("c"), ("C"), ("uc"), ("cc"), false⟩),
           Ev.dbUpdate 3] ∧
     retrieveAndPost fifoU3 = ⟨fifoU3, [], false⟩) := by
  refine ⟨?_, ?_, by decide, by decide⟩
  · intro s r o h
    rw [getTopNewsItem] at h
    cases hsel : selectOldestUnretrieved s with
    | none => rw [hsel] at h; simp at h
    | some b =>
      rw [hsel] at h
      simp only [Prod.mk.injEq, Option.some.injEq] at h
      rcases h with ⟨rfl, -⟩
      exact selectOldest_spec hsel
  · intro s
    cases hsel : selectOldestUnretrieved s with
    | some r =>
      left
      rcases selectOldest_spec hsel with ⟨hmem, hret, hmin⟩
      exact ⟨r, by rw [retrieveAndPost, hsel], hmem, hret, hmin⟩
    | none =>
      right
      refine ⟨by rw [retrieveAndPost, hsel], ?_⟩
      intro r hr
      by_contra hrc
      have hret : r.retrieved = false := by
        revert hrc; cases r.retrieved <;> simp
      have hmem : r ∈ s.rows.filter fun r => !r.retrieved :=
        List.mem_filter.mpr ⟨hr, by simp [hret]⟩
      rw [minByRowid_eq_none.mp hsel] at hmem
      cases hmem

/-- Closed instance of C1: the general FIFO statements of both instances
applied to single-record stores created by one save each. -/
theorem C1_fifo_release_witness :
    ((⟨1, 7, ("t"), ("u"), ("c"), false⟩ : Row Nat)
        ∈ (Store.empty.insert 7 ("t") ("u") ("c")).rows ∧
      (⟨1, 7, ("t"), ("u"), ("c"), false⟩ : Row Nat).retrieved = false ∧
      ∀ r' ∈ (Store.empty.insert 7 ("t") ("u") ("c")).rows,
        r'.retrieved = false →
        (⟨1, 7, ("t"), ("u"), ("c"), false⟩ : Row Nat).rowid ≤ r'.rowid) ∧
    ((∃ r : Row String,
        retrieveAndPost fifoR1
            = ⟨fifoR1.markRetrieved r.rowid,
               [Ev.login, Ev.post (redditMessage r), Ev.dbUpdate r.rowid],
               false⟩ ∧
        r ∈ fifoR1.rows ∧ r.retrieved = false ∧
        ∀ r' ∈ fifoR1.rows, r'.retrieved = false → r.rowid ≤ r'.rowid) ∨
      (retrieveAndPost fifoR1 = ⟨fifoR1, [], false⟩ ∧
        ∀ r ∈ fifoR1.rows, r.retrieved = true)) :=
  ⟨C1_fifo_release.1 (Store.empty.insert 7 ("t") ("u") ("c"))
      ⟨1, 7, ("t"), ("u"), ("c"), false⟩
      ⟨(Store.empty.insert 7 ("t") ("u") ("c")).markRetrieved 1,
        [Ev.dbUpdate 1], false⟩ (by decide),
    C1_fifo_release.2.1 fifoR1⟩

/-! ### Claim C4 -/

/-- C4: a single release invocation transitions at most one record from
unpublished to published: exactly one when an unretrieved row exists (the
selected row, everything else untouched, so the retrieved count rises by
exactly one), and none at all, with the absence signal and no error, when
no unretrieved row exists. Stated for getTopNewsItem and for
retrieveAndPost. -/
theorem C4_release_transition_count :
    (∀ s : Store Nat, UniqueRowids s →
      (hasUnretrieved s = false → getTopNewsItem s = (none, ⟨s, [], false⟩)) ∧
      (hasUnretrieved s = true → ∃ r : Row Nat,
        getTopNewsItem s
            = (some r, ⟨s.markRetrieved r.rowid, [Ev.dbUpdate r.rowid], false⟩) ∧
        r ∈ s.rows ∧ r.retrieved = false ∧
        publishedCount (s.markRetrieved r.rowid) = publishedCount s + 1 ∧
        (s.markRetrieved r.rowid).rows.length = s.rows.length ∧
        ∀ r' ∈ s.rows, r'.rowid ≠ r.rowid →
          r' ∈ (s.markRetrieved r.rowid).rows)) ∧
    (∀ s : Store String, UniqueRowids s →
      (hasUnretrieved s = false → retrieveAndPost s = ⟨s, [], false⟩) ∧
      (hasUnretrieved s = true → ∃ r : Row String,
        retrieveAndPost s
            = ⟨s.markRetrieved r.rowid,
               [Ev.login, Ev.post (redditMessage r), Ev.dbUpdate r.rowid],
               false⟩ ∧
        r ∈ s.rows ∧ r.retrieved = false ∧
        publishedCount (s.markRetrieved r.rowid) = publishedCount s + 1 ∧
        (s.markRetrieved r.rowid).rows.length = s.rows.length ∧
        ∀ r' ∈ s.rows, r'.rowid ≠ r.rowid →
          r' ∈ (s.markRetrieved r.rowid).rows)) := by
  have hall : ∀ {α : Type} (s : Store α), hasUnretrieved s = false →
      ∀ r ∈ s.rows, r.retrieved = true := by
    intro α s h r hr
    have := List.any_eq_false.mp h r hr
    revert this; cases r.retrieved <;> simp
  have hcore : ∀ {α : Type} (s : Store α), UniqueRowids s →
      hasUnretrieved s = true → ∃ r : Row α,
        selectOldestUnretrieved s = some r ∧
        r ∈ s.rows ∧ r.retrieved = false ∧
        publishedCount (s.markRetrieved r.rowid) = publishedCount s + 1 ∧
        (s.markRetrieved r.rowid).rows.length = s.rows.length ∧
        ∀ r' ∈ s.rows, r'.rowid ≠ r.rowid →
          r' ∈ (s.markRetrieved r.rowid).rows := by
    intro α s hu h
    rcases selectOldest_isSome_of_unretrieved h with ⟨r, hsel⟩
    rcases selectOldest_spec hsel with ⟨hmem, hret, -⟩
    refine ⟨r, hsel, hmem, hret,
      publishedCount_markRetrieved hu hmem hret, List.length_map .., ?_⟩
    intro r' hr' hne
    exact mem_map_markRow_of_ne hr' hne
  constructor
  · intro s hu
    constructor
    · intro h
      rw [getTopNewsItem, selectOldest_eq_none (hall s h)]
    · intro h
      rcases hcore s hu h with ⟨r, hsel, hrest⟩
      exact ⟨r, by rw [getTopNewsItem, hsel], hrest⟩
  · intro s hu
    constructor
    · intro h
      rw [retrieveAndPost, selectOldest_eq_none (hall s h)]
    · intro h
      rcases hcore s hu h with ⟨r, hsel, hrest⟩
      exact ⟨r, by rw [retrieveAndPost, hsel], hrest⟩

/-- Closed instance of C4: one unretrieved record exists, so the release
invocation transitions exactly that one. -/
theorem C4_release_transition_count_witness :
    (hasUnretrieved (Store.empty.insert 5 ("t") ("u") ("c")) = false →
      getTopNewsItem (Store.empty.insert 5 ("t") ("u") ("c"))
        = (none, ⟨Store.empty.insert 5 ("t") ("u") ("c"), [], false⟩)) ∧
    (hasUnretrieved (Store.empty.insert 5 ("t") ("u") ("c")) = true →
      ∃ r : Row Nat,
        getTopNewsItem (Store.empty.insert 5 ("t") ("u") ("c"))
            = (some r, ⟨(Store.empty.insert 5 ("t") ("u") ("c")).markRetrieved
                r.rowid, [Ev.dbUpdate r.rowid], false⟩) ∧
        r ∈ (Store.empty.insert 5 ("t") ("u") ("c")).rows ∧
        r.retrieved = false ∧
        publishedCount ((Store.empty.insert 5 ("t") ("u") ("c")).markRetrieved
            r.rowid)
          = publishedCount (Store.empty.insert 5 ("t") ("u") ("c")) + 1 ∧
        ((Store.empty.insert 5 ("t") ("u") ("c")).markRetrieved
            r.rowid).rows.length
          = (Store.empty.insert 5 ("t") ("u") ("c")).rows.length ∧
        ∀ r' ∈ (Store.empty.insert 5 ("t") ("u") ("c")).rows,
          r'.rowid ≠ r.rowid →
          r' ∈ ((Store.empty.insert 5 ("t") ("u") ("c")).markRetrieved
            r.rowid).rows) :=
  C4_release_transition_count.1 (Store.empty.insert 5 ("t") ("u") ("c"))
    (by decide)

/-! ### Claim C10 -/

/-- C10: when no unretrieved record exists, the release step performs no
store write, no login and no post: it returns the absence signal with the
store exactly as it was and an empty event trace, in both instances. -/
theorem C10_noop_release_when_all_published :
    (∀ s : Store Nat, (∀ r ∈ s.rows, r.retrieved = true) →
        getTopNewsItem s = (none, ⟨s, [], false⟩) ∧
        testRetrieval s = ⟨s, [], false⟩) ∧
    (∀ s : Store String, (∀ r ∈ s.rows, r.retrieved = true) →
        retrieveAndPost s = ⟨s, [], false⟩) := by
  constructor
  · intro s h
    have hsel : getTopNewsItem s = (none, ⟨s, [], false⟩) := by
      rw [getTopNewsItem, selectOldest_eq_none h]
    exact ⟨hsel, by rw [testRetrieval, hsel]⟩
  · intro s h
    rw [retrieveAndPost, selectOldest_eq_none h]

/-- Closed instance of C10: a store whose single record is already
retrieved is left untouched by the release step. -/
theorem C10_noop_release_when_all_published_witness :
    getTopNewsItem ⟨[⟨1, 9, ("t"), ("u"), ("c"), true⟩], 2⟩
        = (none, ⟨⟨[⟨1, 9, ("t"), ("u"), ("c"), true⟩], 2⟩, [], false⟩) ∧
      testRetrieval ⟨[⟨1, 9, ("t"), ("u"), ("c"), true⟩], 2⟩
        = ⟨⟨[⟨1, 9, ("t"), ("u"), ("c"), true⟩], 2⟩, [], false⟩ :=
  C10_noop_release_when_all_published.1
    ⟨[⟨1, 9, ("t"), ("u"), ("c"), true⟩], 2⟩ (by decide)

/-! ### Claim C3 -/

/-- C3 counterexample: on a store with one unpublished record, the Reddit
release invocation does publish (a post event occurs) and does update the
row, but no store update precedes the first publish call: the mark-published
write happens after the record was handed to the publish step, not before. -/
theorem C3_counterexample :
    updateBeforeFirstPost (retrieveAndPost c3Store).evs = false ∧
      (retrieveAndPost c3Store).evs.any Ev.isPost = true ∧
      (retrieveAndPost c3Store).evs.any Ev.isDbUpdate = true := by
  decide

/-- C3 amended: in the Hacker News instance the UPDATE marking the selected
record retrieved happens before the login and publish calls (getTopNewsItem
resolves only after its UPDATE completes), so a crash after selection but
before the publish completes leaves the record marked; in the Reddit
instance the publish call happens first and the UPDATE only afterwards, so
no update precedes the first post there. -/
theorem C3_amended_update_before_publish :
    (∀ (s : Store Nat) (r : Row Nat) (o : StepOut Nat),
        getTopNewsItem s = (some r, o) →
        testRetrieval s
            = ⟨o.store,
               [Ev.dbUpdate r.rowid, Ev.login, Ev.post (hnMessage r)],
               false⟩ ∧
          updateBeforeFirstPost
            ([Ev.dbUpdate r.rowid, Ev.login, Ev.post (hnMessage r)]
              : List (Ev Nat)) = true) ∧
    (∀ (s : Store String) (r : Row String),
        selectOldestUnretrieved s = some r →
        retrieveAndPost s
            = ⟨s.markRetrieved r.rowid,
               [Ev.login, Ev.post (redditMessage r), Ev.dbUpdate r.rowid],
               false⟩ ∧
          updateBeforeFirstPost
            ([Ev.login, Ev.post (redditMessage r), Ev.dbUpdate r.rowid]
              : List (Ev String))
            = false) := by
  constructor
  · intro s r o h
    have hsel : selectOldestUnretrieved s = some r := by
      rw [getTopNewsItem] at h
      cases hs : selectOldestUnretrieved s with
      | none => rw [hs] at h; simp at h
      | some b =>
        rw [hs] at h
        simp only [Prod.mk.injEq, Option.some.injEq] at h
        rw [h.1]
    have ho : o = ⟨s.markRetrieved r.rowid, [Ev.dbUpdate r.rowid], false⟩ := by
      rw [getTopNewsItem, hsel] at h
      simp only [Prod.mk.injEq, Option.some.injEq] at h
      exact h.2.symm
    subst ho
    constructor
    · simp [testRetrieval, getTopNewsItem, hsel]
    · rfl
  · intro s r h
    rw [retrieveAndPost, h]
    exact ⟨rfl, rfl⟩

/-- Closed instance of the amended C3 at the concrete one-record store. -/
theorem C3_amended_update_before_publish_witness :
    retrieveAndPost c3Store
        = ⟨c3Store.markRetrieved 1,
           [Ev.login,
            Ev.post (redditMessage ⟨1, ("a"), ("T"), ("U"), ("S"), false⟩),
            Ev.dbUpdate 1],
           false⟩ ∧
      updateBeforeFirstPost
        ([Ev.login,
          Ev.post (redditMessage ⟨1, ("a"), ("T"), ("U"), ("S"), false⟩),
          Ev.dbUpdate 1] : List (Ev String)) = false :=
  C3_amended_update_before_publish.2 c3Store
    ⟨1, ("a"), ("T"), ("U"), ("S"), false⟩ (by decide)

/-! ### Claim C8 -/

/-- Regrouping helper: prepending through an already-computed literal
concatenation. -/
theorem append_lit_left (a b c : String) (h : a ++ b = c) (x : String) :
    a ++ (b ++ x) = c ++ x := by
  rw [← String.append_assoc, h]

/-- C8 counterexample: for a record whose stored url field is the canonical
source link, the message the code builds differs from the spec message that
ends with that url field, in both instances: the code builds the final link
from the external identifier instead and never uses the url column. -/
theorem C8_counterexample :
    (hnMessage ⟨1, 42, ("T"), ("https://example.com/a"), ("S"), false⟩
        == hnMessageSpec ⟨1, 42, ("T"), ("https://example.com/a"), ("S"), false⟩)
      = false ∧
    (redditMessage
          ⟨1, ("abc"), ("T"),
           ("https://www.reddit.com/r/losangeles/comments/abc/x/"), ("S"),
           false⟩
        == redditMessageSpec
          ⟨1, ("abc"), ("T"),
           ("https://www.reddit.com/r/losangeles/comments/abc/x/"), ("S"),
           false⟩)
      = false := by
  decide

/-- C8 amended: the message is built deterministically from the record as a
title line, a blank line, the summary prefixed with the discussion marker, a
blank line, and a source item page URL constructed from the record's
external identifier (the Hacker News item page, resp. the subreddit comments
page) rather than the record's stored url field. -/
theorem C8_amended_message_format :
    (∀ r : Row Nat,
        hnMessage r
          = (("📰 ") ++ r.title) ++ ("\r\n\r\n") ++ (("💬 ") ++ r.summary)
              ++ ("\r\n\r\n")
              ++ (("https://news.ycombinator.com/item?id=")
                    ++ toString r.externalId)) ∧
    (∀ r : Row String,
        redditMessage r
          = (("📰 ") ++ r.title) ++ ("\n\n") ++ (("💬 ") ++ r.summary)
              ++ ("\n\n")
              ++ (("https://www.reddit.com/r/LosAngeles/comments/")
                    ++ r.externalId)) := by
  constructor
  · intro r
    simp [hnMessage, String.append_assoc]
    rw [append_lit_left ("\r\n\r\n") ("https://news.ycombinator.com/item?id=")
          ("\r\n\r\nhttps://news.ycombinator.com/item?id=") (by decide),
        append_lit_left ("\r\n\r\n") ("💬 ") ("\r\n\r\n💬 ") (by decide)]
  · intro r
    simp [redditMessage, String.append_assoc]
    rw [append_lit_left ("\n\n") ("https://www.reddit.com/r/LosAngeles/comments/")
          ("\n\nhttps://www.reddit.com/r/LosAngeles/comments/") (by decide),
        append_lit_left ("\n\n") ("💬 ") ("\n\n💬 ") (by decide)]

/-! ### Claim C2 -/

/-- C2 counterexample: in the Reddit instance, the same candidate appearing
twice within one tick is enriched twice (four summarizer calls instead of
two) and the INSERT is attempted twice, because every dedup callback reads
the table before any INSERT of the tick; only the stored-record count comes
out as one, the second INSERT failing on the primary key. -/
theorem C2_counterexample :
    ((redditProcessPosts okWorldR Store.empty [dupPost, dupPost]).evs.filter
        Ev.isInsertAttempt).length = 2 ∧
    ((redditProcessPosts okWorldR Store.empty [dupPost, dupPost]).evs.filter
        Ev.isSummarizeCall).length = 4 ∧
    countId (redditProcessPosts okWorldR Store.empty [dupPost, dupPost]).store
        ("x") = 1 := by
  decide

/-- C2 amended: a second ingestion attempt for an identifier already stored
at dedup-check time is a complete no-op in both instances (no event, no
store change); in the Hacker News instance, whose candidate loop is
sequential, any non-crashing first attempt leaves at most one record with
the identifier and makes the immediate second attempt a no-op; but in the
Reddit instance two occurrences of one identifier in the same tick are both
enriched and both attempt the INSERT (see the counterexample), with exactly
one stored record remaining. -/
theorem C2_amended_idempotent_ingestion :
    (∀ (w : HNWorld) (s : Store Nat) (id : Nat),
        isStoryProcessed s id = true →
        hnProcessCandidate w s id = ⟨s, [], false⟩) ∧
    (∀ (w : RedditWorld) (s : Store String) (p : RedditPost),
        s.hasId p.id = true →
        redditProcessPosts w s [p] = ⟨s, [], false⟩) ∧
    (∀ (w : HNWorld) (s : Store Nat) (id : Nat),
        UniqueIds s → (hnProcessCandidate w s id).crashed = false →
        UniqueIds (hnProcessCandidate w s id).store ∧
        countId (hnProcessCandidate w s id).store id ≤ 1 ∧
        hnProcessCandidate w (hnProcessCandidate w s id).store id
          = ⟨(hnProcessCandidate w s id).store, [], false⟩) := by
  refine ⟨?_, ?_, ?_⟩
  · intro w s id h
    rw [hnProcessCandidate, if_pos h]
  · intro w s p h
    simp [redditProcessPosts, redditRunCallbacks, redditHandlePost, h]
  · intro w s id hu hcr
    rcases hnProcessCandidate_shape w s id with h | ⟨h1, h2⟩ |
        ⟨t, u, sm, input, hp, h⟩
    · rw [h]
      exact ⟨hu, countId_le_one hu, h⟩
    · rw [h1] at hcr
      cases hcr
    · have hid : s.hasId id = false := hp
      have hins := uniqueIds_insert hu hid t u sm
      refine ⟨?_, ?_, ?_⟩
      · rw [h]; exact hins
      · rw [h]; exact countId_le_one hins
      · rw [h]
        show hnProcessCandidate w (s.insert id t u sm) id
            = ⟨s.insert id t u sm, [], false⟩
        rw [hnProcessCandidate,
          if_pos (show isStoryProcessed (s.insert id t u sm) id = true from
            hasId_insert_self s id t u sm)]

/-- Closed instance of the amended C2: a successful first ingestion of
story 1 leaves a unique record for it and a no-op second attempt. -/
theorem C2_amended_idempotent_ingestion_witness :
    UniqueIds (hnProcessCandidate c6World Store.empty 1).store ∧
    countId (hnProcessCandidate c6World Store.empty 1).store 1 ≤ 1 ∧
    hnProcessCandidate c6World
        (hnProcessCandidate c6World Store.empty 1).store 1
      = ⟨(hnProcessCandidate c6World Store.empty 1).store, [], false⟩ :=
  C2_amended_idempotent_ingestion.2.2 c6World Store.empty 1 (by decide)
    (by decide)

/-! ### Claim C5 -/

/-- C5 counterexample: the Hacker News persist step does not swallow a
uniqueness violation: saving a second record with the already-stored
storyId 1 rejects instead of resolving. -/
theorem C5_counterexample :
    (saveStoryToDatabase (Store.empty.insert 1 ("t") ("u") ("c")) 1
        ("t2") ("u2") ("c2")).isOk = false := by
  decide

/-- C5 amended: in the Reddit instance a uniqueness violation on the INSERT
is logged and swallowed as a successful dedup (store unchanged, tick never
rejects, remaining callbacks proceed); in the Hacker News instance the
persist step itself rejects with the uniqueness error instead of swallowing
it, and that rejection escapes the candidate loop. -/
theorem C5_amended_unique_violation :
    (∀ (w : RedditWorld) (s : Store String) (ps : List RedditPost),
        (redditProcessPosts w s ps).crashed = false) ∧
    (∀ (w : RedditWorld) (s : Store String) (p : RedditPost) (t sm : String),
        w.summarizeTitle p.title = .ok t →
        w.summarizeDiscussion (selftextOrTitle p) = .ok sm →
        s.hasId p.id = true →
        redditHandlePost w false s p
          = (s, [Ev.summarizeTitleCall p.title,
                 Ev.summarizeDiscussionCall (selftextOrTitle p),
                 Ev.insertRow p.id false])) ∧
    (∀ (s : Store Nat) (id : Nat) (t u c : String),
        s.hasId id = true →
        saveStoryToDatabase s id t u c = .error DbErr.uniqueViolation) := by
  refine ⟨?_, ?_, ?_⟩
  · intro w s ps
    rfl
  · intro w s p t sm ht hd hh
    simp [redditHandlePost, ht, hd, hh]
  · intro s id t u c h
    rw [saveStoryToDatabase, if_pos h]

/-- Closed instance of the amended C5: a raced Reddit callback whose dedup
check missed the row hits the primary key violation and leaves the store
unchanged, with the failed INSERT attempt recorded. -/
theorem C5_amended_unique_violation_witness :
    redditHandlePost okWorldR false
        (Store.empty.insert ("x") ("t0") ("u0") ("s0")) dupPost
      = (Store.empty.insert ("x") ("t0") ("u0") ("s0"),
         [Ev.summarizeTitleCall dupPost.title,
          Ev.summarizeDiscussionCall (selftextOrTitle dupPost),
          Ev.insertRow dupPost.id false]) :=
  C5_amended_unique_violation.2.1 okWorldR
    (Store.empty.insert ("x") ("t0") ("u0") ("s0")) dupPost ("T") ("S")
    (by decide) (by decide) (by decide)

/-! ### Claim C6 -/

/-- C6 counterexample: with candidate 2's detail fetch throwing, the tick
over candidates 1, 2, 3 keeps the record persisted for candidate 1 and never
ingests candidate 3 — but the rejection escapes the candidate loop and main
itself (crashed), instead of being caught and logged inside the tick. -/
theorem C6_counterexample :
    (hnIngest c6World Store.empty [1, 2, 3]).crashed = true ∧
    (hnMain c6World Store.empty [1, 2, 3]).crashed = true ∧
    (hnIngest c6World Store.empty [1, 2, 3]).store.hasId 1 = true ∧
    (hnIngest c6World Store.empty [1, 2, 3]).store.hasId 3 = false := by
  decide

/-- C6 amended: in the Hacker News instance a hard failure on candidate c
aborts ingestion of the candidates after c for that tick while every record
persisted before c remains in the store, but the error is not caught: the
rejection propagates out of the candidate loop and out of main (whose top
level installs no handler), skipping the release step; in the Reddit
instance per-candidate failures happen inside detached callbacks and
processPosts itself never rejects. -/
theorem C6_amended_abort_semantics :
    (∀ (w : HNWorld) (s : Store Nat) (pre : List Nat) (c : Nat)
        (post' : List Nat),
        (hnIngest w s pre).crashed = false →
        (hnProcessCandidate w (hnIngest w s pre).store c).crashed = true →
        hnIngest w s (pre ++ c :: post')
          = ⟨(hnIngest w s pre).store,
             (hnIngest w s pre).evs
               ++ (hnProcessCandidate w (hnIngest w s pre).store c).evs,
             true⟩) ∧
    (∀ (w : HNWorld) (s : Store Nat) (ids : List Nat),
        (hnIngest w s ids).crashed = true →
        hnMain w s ids = hnIngest w s ids) ∧
    (∀ (w : RedditWorld) (s : Store String) (ps : List RedditPost),
        (redditProcessPosts w s ps).crashed = false) :=
  ⟨fun w s pre c post' => hnIngest_append_crash w pre s c post',
   hnMain_of_crashed, fun _ _ _ => rfl⟩

/-- Closed instance of the amended C6 at the crashing world: the tick on
candidates 1, 2, 3 equals the tick on candidate 1 alone plus the events of
the failing candidate 2, crashed. -/
theorem C6_amended_abort_semantics_witness :
    hnIngest c6World Store.empty ([1] ++ 2 :: [3])
      = ⟨(hnIngest c6World Store.empty [1]).store,
         (hnIngest c6World Store.empty [1]).evs
           ++ (hnProcessCandidate c6World
                 (hnIngest c6World Store.empty [1]).store 2).evs,
         true⟩ :=
  C6_amended_abort_semantics.1 c6World Store.empty [1] 2 [3] (by decide)
    (by decide)

/-! ### Claim C7 -/

/-- C7 counterexample: a Reddit post with an empty selftext and title hello
makes the code pass the title, not the post body, to the discussion
summarizer. -/
theorem C7_counterexample :
    ((redditProcessPosts okWorldR Store.empty [emptyBodyPost]).evs.contains
        (Ev.summarizeDiscussionCall ("hello")) = true) ∧
    ((redditProcessPosts okWorldR Store.empty [emptyBodyPost]).evs.contains
        (Ev.summarizeDiscussionCall ("")) = false) := by
  decide

/-- C7 amended: in the Hacker News instance, every candidate that reaches
persistence hands the summarizer the newline-joined texts of at most 25
child entries, in source order, where children whose fetch returns no item
or whose item lacks text are silently omitted (a throwing child fetch
instead aborts the candidate, so it never yields an ingested record); in
the Reddit instance the summarizer receives the post body, falling back to
the post title when the body is empty. -/
theorem C7_amended_summarizer_input :
    (∀ (w : HNWorld) (s : Store Nat) (id : Nat) (story : HNItem)
        (kids : List Nat) (ts : List String) (sm : String),
        isStoryProcessed s id = false →
        w.fetchItem id = .ok (some story) →
        story.kids = some kids →
        story.url ≠ ("") →
        hnCollectComments w (kids.take 25) = .ok ts →
        w.summarize (String.intercalate ("\n") ts) = .ok sm →
        hnProcessCandidate w s id
          = ⟨s.insert id story.title story.url sm,
             [Ev.summarizeDiscussionCall
                (String.intercalate ("\n")
                  (commentTextsSpec w (kids.take 25))),
              Ev.insertRow id true],
             false⟩ ∧
        (commentTextsSpec w (kids.take 25)).length ≤ 25) ∧
    (∀ (w : RedditWorld) (s : Store String) (p : RedditPost) (t : String),
        w.summarizeTitle p.title = .ok t →
        Ev.summarizeDiscussionCall (selftextOrTitle p)
          ∈ (redditHandlePost w false s p).2) := by
  constructor
  · intro w s id story kids ts sm hp hf hk hurl hc hsm
    obtain rfl : ts = commentTextsSpec w (kids.take 25) :=
      hnCollectComments_ok w (kids.take 25) ts hc
    have hsv : saveStoryToDatabase s id story.title story.url sm
        = .ok (s.insert id story.title story.url sm) := by
      rw [saveStoryToDatabase, if_neg]
      have hp2 : s.hasId id = false := hp
      intro hcon
      rw [hcon] at hp2
      cases hp2
    constructor
    · simp [hnProcessCandidate, hp, hf, hk, hurl, hc, hsm, hsv]
    · calc (commentTextsSpec w (kids.take 25)).length
          ≤ (kids.take 25).length := List.length_filterMap_le _ _
        _ ≤ 25 := List.length_take_le _ _
  · intro w s p t ht
    cases hd : w.summarizeDiscussion (selftextOrTitle p) with
    | error e => simp [redditHandlePost, ht, hd]
    | ok sm =>
      by_cases hh : s.hasId p.id = true
      · simp [redditHandlePost, ht, hd, hh]
      · have hh2 : s.hasId p.id = false := by simpa using hh
        simp [redditHandlePost, ht, hd, hh2]

/-- Closed instance of the amended C7: the empty-body post hands its title
to the discussion summarizer. -/
theorem C7_amended_summarizer_input_witness :
    Ev.summarizeDiscussionCall (selftextOrTitle emptyBodyPost)
      ∈ (redditHandlePost okWorldR false Store.empty emptyBodyPost).2 :=
  C7_amended_summarizer_input.2 okWorldR Store.empty emptyBodyPost ("T")
    (by decide)

/-! ### Claim C9 -/

/-- C9: the Reddit record stores and later publishes the raw source post
title: the INSERT persists post.title unchanged while the summarizeTitle
result is computed (its call is in the trace) yet bound to an unused
variable, the whole tick output is unchanged under any replacement of the
title summarizer by another succeeding one, and the published message is
built from the stored row. -/
theorem C9_raw_title_published :
    (∀ (w : RedditWorld) (s : Store String) (p : RedditPost) (t sm : String),
        w.summarizeTitle p.title = .ok t →
        w.summarizeDiscussion (selftextOrTitle p) = .ok sm →
        s.hasId p.id = false →
        redditHandlePost w false s p
          = (s.insert p.id p.title p.url sm,
             [Ev.summarizeTitleCall p.title,
              Ev.summarizeDiscussionCall (selftextOrTitle p),
              Ev.insertRow p.id true])) ∧
    (∀ (f g d : String → Except Unit String),
        (∀ x, (f x).isOk = true) → (∀ x, (g x).isOk = true) →
        ∀ (s : Store String) (ps : List RedditPost),
          redditProcessPosts ⟨f, d⟩ s ps = redditProcessPosts ⟨g, d⟩ s ps) ∧
    (∀ (s : Store String) (r : Row String),
        selectOldestUnretrieved s = some r →
        (retrieveAndPost s).evs
          = [Ev.login, Ev.post (redditMessage r), Ev.dbUpdate r.rowid]) := by
  refine ⟨?_, ?_, ?_⟩
  · intro w s p t sm ht hd hh
    simp [redditHandlePost, ht, hd, hh]
  · intro f g d hf hg s ps
    simp only [redditProcessPosts]
    rw [redditRunCallbacks_title_indep f g d hf hg
        (ps.map fun p => (p, s.hasId p.id)) s]
  · intro s r h
    rw [retrieveAndPost, h]

/-- Closed instance of C9: ingesting one fresh post stores the raw title
while the title-summary call appears in the trace. -/
theorem C9_raw_title_published_witness :
    redditHandlePost okWorldR false Store.empty dupPost
      = (Store.empty.insert dupPost.id dupPost.title dupPost.url ("S"),
         [Ev.summarizeTitleCall dupPost.title,
          Ev.summarizeDiscussionCall (selftextOrTitle dupPost),
          Ev.insertRow dupPost.id true]) :=
  C9_raw_title_published.1 okWorldR Store.empty dupPost ("T") ("S")
    (by decide) (by decide) (by decide)

end Bot
